import Mathlib

/-!
Verification of the SEGGER RTT viewer (`src/main.py`) against its
natural-language specification.

The development shallowly embeds the parts of `main.py` that the claims
refer to:

* the line "framer" implemented by `SeggerRTTListener.read_blocking` and
  `SeggerRTTListener.__next__`,
* the strict per-read UTF-8 decode performed by `read_blocking`,
* the RTT control-block retry loop and the rest of the bring-up sequence
  in `SeggerRTTListener.__enter__`, together with the teardown in
  `__exit__` and Python's `with`-statement semantics used by `main`,
* the device-name resolution in `SeggerRTTListener._get_device_name`.

Byte values are modelled as `Nat` (each < 256 where it matters), strings
as Lean `String`/`List Char`, exceptions as explicit sum types, blocking
loops by fuel, and the interactive stdin loop by a list of input
fragments.
-/

/-! ## Python string helpers used by `main.py`

`str.rstrip()` and `str.strip()` remove whitespace characters.  We model
the ASCII whitespace set (space, tab, newline, carriage return, vertical
tab, form feed), which covers every byte the program can receive over an
RTT channel that matters to the claims. -/

/-- Whitespace characters stripped by Python's `str.strip` / `str.rstrip`
(ASCII subset). -/
def pyIsSpace (c : Char) : Bool :=
  c = ' ' || c = '\t' || c = '\n' || c = '\r' || c = '\x0b' || c = '\x0c'

/-- Remove trailing whitespace from a character list (Python `str.rstrip`). -/
def rstripChars (l : List Char) : List Char :=
  (l.reverse.dropWhile pyIsSpace).reverse

/-- Remove leading and trailing whitespace (Python `str.strip`). -/
def stripChars (l : List Char) : List Char :=
  rstripChars (l.dropWhile pyIsSpace)

/-- Python `s.rstrip()` on a Lean `String`. -/
def pyRstrip (s : String) : String := ⟨rstripChars s.data⟩

/-- Python `s.strip()` on a Lean `String`. -/
def pyStrip (s : String) : String := ⟨stripChars s.data⟩

/-! ## The line framer of `__next__`

`__next__` (main.py:155-163) calls `read_blocking`, splits the returned
chunk on `"\n"` and `return`s inside the `for` loop, so only the first
`"\n"`-separated segment of the chunk is ever emitted, `rstrip`-ed; the
rest of the chunk is discarded.  `read_blocking` (main.py:146-153) blocks
until some read returns data, so each produced line corresponds to the
first nonempty transport read since the previous line. -/

/-- Characters of a chunk before its first `'\n'`: the first element of
Python's `rx_data.split("\n")`. -/
def takeUntilNl : List Char → List Char
  | [] => []
  | c :: rest => if c = '\n' then [] else c :: takeUntilNl rest

/-- The single line `__next__` emits for one nonempty decoded chunk:
`rx_data.split("\n")[0].rstrip()` (main.py:161-163). -/
def emitLine (chunk : String) : String := ⟨rstripChars (takeUntilNl chunk.data)⟩

/-- `read_blocking` on a queue of pending transport reads: skip empty
reads, return the first nonempty chunk and the remaining queue, `none`
when the queue is exhausted (the real loop would block forever). -/
def readChunks : List String → Option (String × List String)
  | [] => none
  | c :: rest => if c.isEmpty then readChunks rest else some (c, rest)

/-- All lines the listener emits while the transport delivers the given
chunks, in order: one `emitLine` per nonempty read. Mirrors repeatedly
calling `__next__` while connected. -/
def framerRun : List String → List String
  | [] => []
  | c :: rest =>
    if c.isEmpty then framerRun rest else emitLine c :: framerRun rest

/-! ## Spec-side framing (for comparison with the code)

For a refinement comparison, spec §4.2 prescribes: split the accumulator
on `\n`, strip a single trailing `\r` from each segment, emit all
complete segments, retain the trailing partial segment.  `specFrameOne`
is that prescription applied to one chunk (named after the spec, not the
code). -/

/-- Split a character list on `'\n'` (Python `s.split("\n")`): always at
least one (possibly empty) segment. -/
def splitOnNl : List Char → List (List Char)
  | [] => [[]]
  | c :: rest =>
    if c = '\n' then [] :: splitOnNl rest
    else
      match splitOnNl rest with
      | [] => [[c]]
      | seg :: segs => (c :: seg) :: segs

/-- Strip exactly one trailing `'\r'`, preserving everything else. -/
def stripOneCR (l : List Char) : List Char :=
  match l.getLast? with
  | some '\r' => l.dropLast
  | _ => l

/-- Framing of one chunk as the spec words it: emit every complete
(`\n`-terminated) segment with a single trailing `\r` stripped; the final
trailing segment is retained, not emitted. -/
def specFrameOne (s : String) : List String :=
  ((splitOnNl s.data).dropLast).map (fun seg => ⟨stripOneCR seg⟩)

/-! ## Strict UTF-8 decoding in `read_blocking`

`read_blocking` (main.py:146-153) returns
`bytes(rx_data).decode('utf-8')`: a *strict* decode of exactly the bytes
of the current read.  We model the standard UTF-8 decoder (as Python's
codec implements it: continuation bytes `0x80..0xBF`, no overlong forms,
no surrogates, max `U+10FFFF`), producing the list of decoded code
points or `none` when the byte sequence is not valid UTF-8. -/

/-- A UTF-8 continuation byte. -/
def isCont (b : Nat) : Bool := 0x80 ≤ b && b ≤ 0xBF

/-- Allowed second byte after a three-byte leader (excludes overlong
forms for `0xE0` and surrogates for `0xED`). -/
def validSecond3 (b b2 : Nat) : Bool :=
  if b = 0xE0 then 0xA0 ≤ b2 && b2 ≤ 0xBF
  else if b = 0xED then 0x80 ≤ b2 && b2 ≤ 0x9F
  else isCont b2

/-- Allowed second byte after a four-byte leader (excludes overlong forms
for `0xF0` and code points above `U+10FFFF` for `0xF4`). -/
def validSecond4 (b b2 : Nat) : Bool :=
  if b = 0xF0 then 0x90 ≤ b2 && b2 ≤ 0xBF
  else if b = 0xF4 then 0x80 ≤ b2 && b2 ≤ 0x8F
  else isCont b2

/-- Strict UTF-8 decode of a byte list into code points; `none` models
Python raising `UnicodeDecodeError` (including on a truncated multi-byte
sequence at the end of the read). -/
def utf8Decode : List Nat → Option (List Nat)
  | [] => some []
  | b :: rest =>
    if b ≤ 0x7F then (utf8Decode rest).map (b :: ·)
    else
      match rest with
      | [] => none
      | b2 :: rest2 =>
        if 0xC2 ≤ b && b ≤ 0xDF then
          if isCont b2 then
            (utf8Decode rest2).map (((b - 0xC0) * 64 + (b2 - 0x80)) :: ·)
          else none
        else
          match rest2 with
          | [] => none
          | b3 :: rest3 =>
            if 0xE0 ≤ b && b ≤ 0xEF then
              if validSecond3 b b2 && isCont b3 then
                (utf8Decode rest3).map
                  (((b - 0xE0) * 4096 + (b2 - 0x80) * 64 + (b3 - 0x80)) :: ·)
              else none
            else
              match rest3 with
              | [] => none
              | b4 :: rest4 =>
                if 0xF0 ≤ b && b ≤ 0xF4 then
                  if validSecond4 b b2 && isCont b3 && isCont b4 then
                    (utf8Decode rest4).map
                      (((b - 0xF0) * 262144 + (b2 - 0x80) * 4096
                        + (b3 - 0x80) * 64 + (b4 - 0x80)) :: ·)
                  else none
                else none

/-- Result of `bytes(rx_data).decode('utf-8')` on one read. -/
inductive ReadResult where
  | decoded (codePoints : List Nat)
  | unicodeDecodeError
  deriving DecidableEq, Repr

/-- The decode step of `read_blocking` applied to the bytes of one
nonempty read (main.py:152). -/
def decodeRead (bs : List Nat) : ReadResult :=
  match utf8Decode bs with
  | some cps => .decoded cps
  | none => .unicodeDecodeError

/-- Byte-level `read_blocking` over a queue of pending reads: the first
nonempty read is decoded strictly; earlier bytes are never retained. -/
def readBlockingBytes : List (List Nat) → Option ReadResult
  | [] => none
  | c :: rest => if c.isEmpty then readBlockingBytes rest else some (decodeRead c)

/-! ## `read_blocking`'s buffer polling loop

main.py:146-153: an outer `while True` whose body scans RTT up-buffer
indices `0 .. num_rx_buffers-1` in ascending order, returns on the first
nonempty read and otherwise sleeps 10 ms and retries.  The outer loop is
modelled with fuel (the number of polling rounds); `readBuf t i` gives
the bytes buffer `i` would deliver in round `t`. -/

/-- One pass of the inner `for i in range(numBufs)` loop, scanning
ascending indices starting at `i` with `r` indices remaining. -/
def scanBuffers (readBuf : Nat → List Nat) : Nat → Nat → Option (List Nat)
  | _, 0 => none
  | i, r + 1 =>
    let d := readBuf i
    if d.isEmpty then scanBuffers readBuf (i + 1) r else some d

/-- `read_blocking` run for at most `fuel` rounds of the outer loop:
`none` means it is still looping (it never returned). -/
def readBlockingSteps (readBuf : Nat → Nat → List Nat) (numBufs : Nat) :
    Nat → Option ReadResult
  | 0 => none
  | t + 1 =>
    match scanBuffers (readBuf t) 0 numBufs with
    | some d => some (decodeRead d)
    | none => readBlockingSteps readBuf numBufs t

/-! ## The control-block retry loop of `__enter__`

main.py:128-136: `for _ in range(20):` try
`rtt_get_num_up_buffers()`; on success store the count and `break`; on a
`JLinkRTTException` whose text contains "The RTT Control Block has not
yet been found" sleep 100 ms and continue; on any other exception
re-raise.  Crucially, when all 20 attempts fail with "not yet found" the
loop simply *ends* and execution continues with
`_jlink_rtt_num_rx_buffers` still `0` — no exception is raised. -/

/-- Outcome of one `rtt_get_num_up_buffers()` call. -/
inductive AttemptOutcome where
  | success (numBufs : Nat)
  | notYetFound
  | otherError
  deriving DecidableEq, Repr

/-- The `for _ in range(20)` retry loop: `i` is the current attempt
index, the second argument the remaining attempts, `cur` the current
value of `_jlink_rtt_num_rx_buffers`.  `Except.error ()` models the
re-raised non-"not yet found" exception. -/
def cbLoop (attempt : Nat → AttemptOutcome) : Nat → Nat → Nat → Except Unit Nat
  | _, 0, cur => .ok cur
  | i, r + 1, cur =>
    match attempt i with
    | .success n => .ok n
    | .notYetFound => cbLoop attempt (i + 1) r cur
    | .otherError => .error ()

/-- The whole retry phase as `__enter__` runs it: 20 attempts starting
from `_jlink_rtt_num_rx_buffers = 0`; the result is the buffer count the
bring-up proceeds with. -/
def cbSetup (attempt : Nat → AttemptOutcome) : Except Unit Nat :=
  cbLoop attempt 0 20 0

/-! ## `__enter__` / `__exit__` and the `with` statement

`__enter__` (main.py:109-144): `open()`; `_get_device_name()` (raise
`ValueError` when it returns a falsy name); `set_tif`; `connect`;
`rtt_start`; the retry loop above; return `self`.  `__exit__`
(main.py:165-170): `rtt_stop()` then `close()` inside one
`try/except JLinkRTTException: pass` — if `rtt_stop` raises a
`JLinkRTTException`, `close()` is skipped and the exception swallowed.
Python's `with` (main.py:178) calls `__exit__` only when `__enter__`
returned without raising. -/

/-- Environment of oracle answers for one bring-up run. -/
structure BringupEnv where
  openOk : Bool
  deviceName : Option String
  connectOk : Bool
  rttStartOk : Bool
  attempt : Nat → AttemptOutcome
  rttStopOk : Bool

/-- Exceptions `__enter__` can raise. -/
inductive BringupError where
  | openFailed
  | noDeviceName
  | connectFailed
  | rttStartFailed
  | jlinkError
  deriving DecidableEq, Repr

/-- Observable transport state accumulated during a run. -/
structure TransportState where
  opened : Bool
  rttStarted : Bool
  rttStopped : Bool
  closed : Bool
  deriving DecidableEq, Repr

/-- State before `__enter__` runs. -/
def initTransport : TransportState :=
  { opened := false, rttStarted := false, rttStopped := false, closed := false }

/-- `__enter__` (main.py:109-144): result is the recorded up-buffer
count on success, the raised exception on failure; the second component
is the transport state at the moment `__enter__` returns or raises. -/
def enterModel (env : BringupEnv) : Except BringupError Nat × TransportState :=
  if !env.openOk then (.error .openFailed, initTransport)
  else
    let s1 := { initTransport with opened := true }
    match env.deviceName with
    | none => (.error .noDeviceName, s1)
    | some _ =>
      if !env.connectOk then (.error .connectFailed, s1)
      else if !env.rttStartOk then (.error .rttStartFailed, s1)
      else
        let s2 := { s1 with rttStarted := true }
        match cbSetup env.attempt with
        | .error _ => (.error .jlinkError, s2)
        | .ok n => (.ok n, s2)

/-- `__exit__` (main.py:165-170): `rtt_stop` then `close`, both skipped
past the first `JLinkRTTException`, which is swallowed. -/
def exitModel (rttStopOk : Bool) (s : TransportState) : TransportState :=
  if rttStopOk then { s with rttStopped := true, closed := true } else s

/-- `with SeggerRTTListener() as listener: ...` (main.py:178-180) around
a body that runs to completion: `__exit__` runs only when `__enter__`
succeeded; when `__enter__` raises, the exception propagates with the
transport state exactly as `__enter__` left it. -/
def withModel (env : BringupEnv) : Except BringupError Nat × TransportState :=
  match enterModel env with
  | (.error e, s) => (.error e, s)
  | (.ok n, s) => (.ok n, exitModel env.rttStopOk s)

/-! ## `__next__` and the consumer `for` loop

main.py:155-163: when `self.connected` is false, `__next__` executes
`return StopIteration` — it returns the `StopIteration` *class* as an
ordinary value instead of raising it.  Under Python's iteration protocol
a `for` loop ends only when `__next__` *raises* `StopIteration`, so the
consumer loop in `main` (main.py:179-180) keeps receiving (and printing)
the class object forever. -/

/-- A value returned by `__next__`. -/
inductive NextOutcome where
  | line (s : String)
  | stopIterationClass
  deriving DecidableEq, Repr

/-- One call to `__next__` against a queue of pending reads. -/
inductive NextStep where
  | yielded (v : NextOutcome) (rest : List String)
  | raisedStopIteration
  | blockedForever
  deriving DecidableEq, Repr

/-- `__next__` (main.py:155-163).  Note the disconnect branch *yields*
`StopIteration` as a value; no branch ever raises it. -/
def nextModel (connected : Bool) (chunks : List String) : NextStep :=
  if !connected then .yielded .stopIterationClass chunks
  else
    match readChunks chunks with
    | some (c, rest) => .yielded (.line (emitLine c)) rest
    | none => .blockedForever

/-- Status of the consumer `for` loop after finitely many iterations. -/
inductive LoopStatus where
  | running
  | ended
  | blocked
  deriving DecidableEq, Repr

/-- `for line in listener: print(line)` run for `n` iterations: the list
of values the loop body received, and whether the loop has terminated.
The loop terminates only on a *raised* `StopIteration`. -/
def consumerRun (connected : Bool) : List String → Nat → List NextOutcome × LoopStatus
  | _, 0 => ([], .running)
  | chunks, n + 1 =>
    match nextModel connected chunks with
    | .raisedStopIteration => ([], .ended)
    | .blockedForever => ([], .blocked)
    | .yielded v rest =>
      let (vs, st) := consumerRun connected rest n
      (v :: vs, st)

/-! ## Device-name resolution (`_get_device_name`, main.py:50-107)

The catalog is modelled as the list of supported device names (the
resolution logic touches only `sd.name`; manufacturer and sizes are only
printed).  The interactive `while not device_name` loop consumes stdin
entries; we model the sequence of entries the user types as a list of
fragments.  `input_dn` equal to `""` is skipped (`continue`). -/

/-- Lower-cased characters of a string (Python `s.lower()`, ASCII). -/
def lowerChars (s : String) : List Char := s.data.map Char.toLower

/-- Python `name.lower().startswith(dn.lower())`. -/
def ciStartsWith (name dn : String) : Bool :=
  (lowerChars dn).isPrefixOf (lowerChars name)

/-- Python membership test of `_validate_device_name` (main.py:46-48):
`device_name.lower() in (catalog names lowered)`. -/
def validateDeviceName (catalog : List String) (name : String) : Bool :=
  catalog.any (fun n => lowerChars n = lowerChars name)

/-- Result of the interactive resolution loop on a finite fragment
list. -/
inductive ResolveOutcome where
  | resolved (name : String)
  | noMatch (dn : String)
  | needsMoreInput (dn : String) (candidates : List String)
  deriving DecidableEq, Repr

/-- The `while not device_name` loop of main.py:72-101: `dn` is the
accumulated entry, `devices` is `None` before the first nonempty
fragment (the candidate list is built from the full catalog only once,
then only filtered).  When the fragments run out the real loop blocks on
`input()`; we report the pending candidate list. -/
def resolveLoop (catalog : List String) (dn : String)
    (devices : Option (List String)) : List String → ResolveOutcome
  | [] => .needsMoreInput dn (devices.getD [])
  | f :: rest =>
    if f.isEmpty then resolveLoop catalog dn devices rest
    else
      let dn2 := dn ++ f
      let base :=
        match devices with
        | none => catalog.filter (fun n => ciStartsWith n dn2)
        | some ds => ds
      let filtered := base.filter (fun n => ciStartsWith n dn2)
      match filtered with
      | [] => .noMatch dn2
      | [d] => .resolved d
      | _ => resolveLoop catalog dn2 (some filtered) rest

/-- What `_get_device_name` did: the name it returned and what it wrote
to the `.jlink_last_used_device_name` slot, or that it returned `None`
(no write happens on that path), or that it is still blocked on
stdin. -/
inductive GetNameOutcome where
  | got (name : String) (written : String)
  | noneNoWrite
  | blockedOnInput
  deriving DecidableEq, Repr

/-- Python truthiness of an optional string. -/
def pyTruthy : Option String → Bool
  | none => false
  | some s => !s.isEmpty

/-- `_get_device_name` (main.py:50-107).  `ctorName` is the name passed
to the constructor, `fileContent` the raw content of the cache file
(`none` models `FileNotFoundError`), `fragments` the stdin entries.
Key structure: a truthy constructor name skips *both* the cache-file
validation and the interactive loop, and is then written to the cache
slot unconditionally (main.py:104-105). -/
def getDeviceName (catalog : List String) (ctorName : Option String)
    (fileContent : Option String) (fragments : List String) : GetNameOutcome :=
  if pyTruthy ctorName then
    .got (ctorName.getD "") (ctorName.getD "")
  else
    let fromFile : Option String := fileContent.map pyStrip
    let checked : Option String :=
      if pyTruthy fromFile && !validateDeviceName catalog ((fromFile).getD "") then
        none
      else fromFile
    if pyTruthy checked then
      .got (checked.getD "") (checked.getD "")
    else
      match resolveLoop catalog "" none fragments with
      | .resolved d => .got d d
      | .noMatch _ => .noneNoWrite
      | .needsMoreInput _ _ => .blockedOnInput

/-- The three-entry catalog of the spec's resolver scenario. -/
def scenarioCatalog : List String :=
  ["NRF52840_XXAA", "NRF52832_XXAA", "STM32F407VG"]

/-! ## Helper lemmas (shared across the claims) -/

/-- The run of the framer processes each nonempty read independently:
one emitted line per nonempty chunk, in order. -/
theorem framerRun_eq_emit_map (chunks : List String) :
    framerRun chunks = (chunks.filter (fun c => !c.isEmpty)).map emitLine := by
  induction chunks with
  | nil => rfl
  | cons c rest ih =>
    by_cases h : c.isEmpty <;> simp [framerRun, List.filter_cons, h, ih]

/-- The head that survives `dropWhile p` does not satisfy `p`. -/
theorem head?_dropWhile_false {α : Type} (p : α → Bool) :
    ∀ (l : List α) (a : α), (l.dropWhile p).head? = some a → p a = false := by
  intro l
  induction l with
  | nil => intro a h; simp [List.dropWhile] at h
  | cons x xs ih =>
    intro a h
    by_cases hx : p x
    · rw [List.dropWhile_cons_of_pos hx] at h
      exact ih a h
    · rw [List.dropWhile_cons_of_neg hx] at h
      simp at h
      rw [← h]
      simpa using hx

/-- The last character surviving `rstripChars` is not whitespace. -/
theorem rstrip_getLast_not_space (l : List Char) (c : Char)
    (h : (rstripChars l).getLast? = some c) : pyIsSpace c = false := by
  unfold rstripChars at h
  rw [List.getLast?_reverse] at h
  exact head?_dropWhile_false pyIsSpace _ c h

/-! ## Claims C1, C5, C7 — the line framer -/

/-- Claim C1, counterexample: the two chunkings `["ab\n"]` and
`["a", "b\n"]` of the same logical byte sequence `"ab\n"` produce
different line lists, so framing is not split-invariant. -/
theorem framer_not_split_invariant :
    "a" ++ "b\n" = "ab\n" ∧
    framerRun ["ab\n"] = ["ab"] ∧
    framerRun ["a", "b\n"] = ["a", "b"] ∧
    framerRun ["a", "b\n"] ≠ framerRun ["ab\n"] := by
  refine ⟨by decide, by decide, by decide, by decide⟩

/-- Claim C1 (amended): the framer has no cross-read accumulator; it
emits exactly one line per nonempty transport read — the first
`"\n"`-segment of that read, `rstrip`-ed — so the emitted lines are a
function of the chunking, not only of the logical byte sequence. -/
theorem framer_emits_per_read (chunks : List String) :
    framerRun chunks = (chunks.filter (fun c => !c.isEmpty)).map emitLine :=
  framerRun_eq_emit_map chunks

/-- Claim C5, counterexample: delivering `"Hello "`, `"Wor"`,
`"ld\r\n"` does not produce the single line `"Hello World"`. -/
theorem hello_world_scenario_counterexample :
    framerRun ["Hello ", "Wor", "ld\r\n"] ≠ ["Hello World"] := by decide

/-- Claim C5 (amended): on chunks `"Hello "`, `"Wor"`, `"ld\r\n"` the
listener emits three lines `"Hello"`, `"Wor"`, `"ld"` — one per read,
with trailing whitespace (including the space after `Hello`)
`rstrip`-ed. -/
theorem hello_world_scenario_actual :
    framerRun ["Hello ", "Wor", "ld\r\n"] = ["Hello", "Wor", "ld"] := by decide

/-- Claim C7, counterexample: the emitted line for the read `"a \n"` is
`"a"`, not the spec-prescribed segment `"a "` with only a single
trailing `\r` stripped — `rstrip()` also removes the trailing space. -/
theorem trailing_space_not_preserved :
    framerRun ["a \n"] = ["a"] ∧
    specFrameOne "a \n" = ["a "] ∧
    framerRun ["a \n"] ≠ specFrameOne "a \n" := by
  refine ⟨by decide, by decide, by decide⟩

/-- Claim C7 (amended): every emitted line is the first `"\n"`-segment
of a read with *all* trailing whitespace stripped, so no emitted line
ends in `'\r'` or `'\n'` (but other trailing whitespace is not
preserved). -/
theorem emitted_lines_no_trailing_cr_lf (chunks : List String) (line : String)
    (h : line ∈ framerRun chunks) :
    line.data.getLast? ≠ some '\r' ∧ line.data.getLast? ≠ some '\n' := by
  rw [framerRun_eq_emit_map] at h
  obtain ⟨c, -, rfl⟩ := List.mem_map.mp h
  constructor
  · intro heq
    have h2 : (rstripChars (takeUntilNl c.data)).getLast? = some '\r' := heq
    have := rstrip_getLast_not_space _ _ h2
    exact absurd this (by decide)
  · intro heq
    have h2 : (rstripChars (takeUntilNl c.data)).getLast? = some '\n' := heq
    have := rstrip_getLast_not_space _ _ h2
    exact absurd this (by decide)

/-- Claim C7 witness: the line `"x"` emitted for the read `"x\r\n"`
ends in neither `'\r'` nor `'\n'`. -/
theorem emitted_lines_no_trailing_cr_lf_witness :
    ("x" : String) ∈ framerRun ["x\r\n"] ∧
    (("x" : String).data.getLast? ≠ some '\r' ∧
     ("x" : String).data.getLast? ≠ some '\n') :=
  ⟨by decide, emitted_lines_no_trailing_cr_lf ["x\r\n"] "x" (by decide)⟩

/-! ## Claim C8 — device-name resolution scenario -/

/-- Claim C8, counterexample: with the scenario catalog, after fragments
`"NRF52"` then `"8"` *two* candidates remain (`NRF52840_XXAA` and
`NRF52832_XXAA` both start with `NRF528`), so resolution does not
converge on the second fragment. -/
theorem resolver_scenario_counterexample :
    resolveLoop scenarioCatalog "" none ["NRF52", "8"] =
      .needsMoreInput "NRF528" ["NRF52840_XXAA", "NRF52832_XXAA"] ∧
    resolveLoop scenarioCatalog "" none ["NRF52", "8"] ≠
      .resolved "NRF52840_XXAA" := by
  refine ⟨by decide, by decide⟩

/-- Claim C8 (amended): fragments `"NRF52"` then `"8"` shrink the
candidate set to the two `NRF528xx` entries and the resolver still
requires input; a further fragment `"4"` makes the set a singleton and
resolution succeeds with `NRF52840_XXAA` without further input. -/
theorem resolver_scenario_actual :
    resolveLoop scenarioCatalog "" none ["NRF52"] =
      .needsMoreInput "NRF52" ["NRF52840_XXAA", "NRF52832_XXAA"] ∧
    resolveLoop scenarioCatalog "" none ["NRF52", "8"] =
      .needsMoreInput "NRF528" ["NRF52840_XXAA", "NRF52832_XXAA"] ∧
    resolveLoop scenarioCatalog "" none ["NRF52", "8", "4"] =
      .resolved "NRF52840_XXAA" := by
  refine ⟨by decide, by decide, by decide⟩

/-! ## Claim C2 — the control-block retry loop -/

/-- Skipping `k` consecutive "not yet found" attempts leaves the loop at
attempt `i + k` with `k` fewer iterations remaining. -/
theorem cbLoop_skip (att : Nat → AttemptOutcome) :
    ∀ (k i r cur), (∀ j, j < k → att (i + j) = .notYetFound) → k ≤ r →
      cbLoop att i r cur = cbLoop att (i + k) (r - k) cur := by
  intro k
  induction k with
  | zero => intro i r cur _ _; simp
  | succ k ih =>
    intro i r cur h hle
    obtain ⟨r', rfl⟩ : ∃ r', r = r' + 1 := ⟨r - 1, by omega⟩
    have h0 : att i = .notYetFound := by simpa using h 0 (by omega)
    have hrest : ∀ j, j < k → att (i + 1 + j) = .notYetFound := by
      intro j hj
      have hh := h (j + 1) (by omega)
      have heq : i + (j + 1) = i + 1 + j := by omega
      rw [heq] at hh
      exact hh
    calc cbLoop att i (r' + 1) cur
        = cbLoop att (i + 1) r' cur := by simp [cbLoop, h0]
      _ = cbLoop att (i + 1 + k) (r' - k) cur := ih (i + 1) r' cur hrest (by omega)
      _ = cbLoop att (i + (k + 1)) (r' + 1 - (k + 1)) cur := by congr 1 <;> omega

/-- Environment in which every control-block query fails with "not yet
found" and everything else succeeds. -/
def envAllNotFound : BringupEnv :=
  ⟨true, some "NRF52840_XXAA", true, true, fun _ => .notYetFound, true⟩

/-- Claim C2, counterexample: when all 20 attempts fail with "not yet
found", the retry loop ends *silently* with the buffer count still `0`
and `__enter__` returns successfully (the claimed `Closed` state and
`ControlBlockTimeoutError` never happen). -/
theorem cb_exhaustion_no_timeout_error :
    cbSetup (fun _ => AttemptOutcome.notYetFound) = .ok 0 ∧
    enterModel envAllNotFound = (.ok 0, ⟨true, true, false, false⟩) :=
  ⟨rfl, rfl⟩

/-- Claim C2 (amended): 19 "not yet found" failures followed by success
on the 20th attempt record the returned buffer count and bring-up
proceeds (Connected); but when all 20 attempts fail, the loop exits
silently, the buffer count stays `0`, and bring-up still proceeds with
no timeout error surfaced. -/
theorem cb_retry_semantics (att : Nat → AttemptOutcome) (n : Nat) :
    ((∀ i, i < 19 → att i = .notYetFound) → att 19 = .success n →
      cbSetup att = .ok n) ∧
    ((∀ i, i < 20 → att i = .notYetFound) → cbSetup att = .ok 0) := by
  constructor
  · intro h hs
    have hskip := cbLoop_skip att 19 0 20 0 (fun j hj => by simpa using h j hj)
      (by omega)
    unfold cbSetup
    rw [hskip]
    norm_num
    simp [cbLoop, hs]
  · intro h
    have hskip := cbLoop_skip att 20 0 20 0 (fun j hj => by simpa using h j hj)
      (by omega)
    unfold cbSetup
    rw [hskip]
    norm_num
    simp [cbLoop]

/-- Attempt oracle failing 19 times then succeeding with 4 buffers. -/
def att19 : Nat → AttemptOutcome :=
  fun i => if i < 19 then .notYetFound else .success 4

/-- Claim C2 witness: concrete runs of both halves of the amended
statement. -/
theorem cb_retry_semantics_witness :
    cbSetup att19 = .ok 4 ∧
    cbSetup (fun _ => AttemptOutcome.notYetFound) = .ok 0 := by
  constructor
  · exact (cb_retry_semantics att19 4).1 (by decide) (by decide)
  · exact (cb_retry_semantics (fun _ => AttemptOutcome.notYetFound) 0).2
      (fun i _ => rfl)

/-! ## Claim C3 — disconnect does not end the iteration -/

/-- Claim C3 (code bug): when `connected` is false, `__next__` *returns*
the `StopIteration` class as an ordinary value instead of raising it, so
the consumer `for` loop never terminates: after `n` iterations it has
received `n` copies of the class object and is still running. -/
theorem disconnected_next_keeps_yielding (chunks : List String) (n : Nat) :
    nextModel false chunks = .yielded .stopIterationClass chunks ∧
    consumerRun false chunks n =
      (List.replicate n NextOutcome.stopIterationClass, .running) := by
  refine ⟨rfl, ?_⟩
  induction n with
  | zero => rfl
  | succ m ih => simp [consumerRun, nextModel, List.replicate_succ, ih]

/-! ## Claim C4 — release on bring-up failure -/

/-- `__enter__` never closes the transport on any of its paths, success
or failure. -/
theorem enterModel_closed_false (env : BringupEnv) :
    (enterModel env).2.closed = false := by
  unfold enterModel
  dsimp only
  repeat' split
  all_goals rfl

/-- Environment where `_get_device_name` returns `None`, so `__enter__`
raises `ValueError` after having opened the probe. -/
def envNoDevice : BringupEnv := ⟨true, none, true, true, fun _ => .success 1, true⟩

/-- Claim C4, counterexample: when `_get_device_name` yields no name,
`__enter__` raises after `open()` succeeded; `with` never calls
`__exit__` for a failed `__enter__`, so the error is reported with the
transport still open (`opened = true`, `closed = false`). -/
theorem enter_failure_leaves_transport_open :
    enterModel envNoDevice = (.error .noDeviceName, ⟨true, false, false, false⟩) ∧
    withModel envNoDevice = (.error .noDeviceName, ⟨true, false, false, false⟩) ∧
    (⟨true, false, false, false⟩ : TransportState).closed = false :=
  ⟨rfl, rfl, rfl⟩

/-- Claim C4 (amended): teardown runs only after a *successful*
`__enter__`: when `__enter__` fails, the error propagates with the
transport state exactly as `__enter__` left it — never closed; when
`__enter__` succeeds (and `rtt_stop` does not itself raise), `__exit__`
stops RTT and closes the transport. -/
theorem release_only_after_successful_enter (env : BringupEnv) :
    (∀ e s, enterModel env = (Except.error e, s) →
      withModel env = (Except.error e, s) ∧ s.closed = false) ∧
    (∀ n s, enterModel env = (Except.ok n, s) → env.rttStopOk = true →
      (withModel env).2.closed = true ∧ (withModel env).2.rttStopped = true) := by
  constructor
  · intro e s h
    refine ⟨by simp [withModel, h], ?_⟩
    have hc := enterModel_closed_false env
    rw [h] at hc
    exact hc
  · intro n s h hstop
    simp [withModel, h, exitModel, hstop]

/-- Environment of a fully successful bring-up. -/
def envBringupOk : BringupEnv :=
  ⟨true, some "NRF52840_XXAA", true, true, fun _ => .success 3, true⟩

/-- Claim C4 witness: the failure half at `envNoDevice` and the success
half at `envBringupOk`. -/
theorem release_only_after_successful_enter_witness :
    (withModel envNoDevice =
        (Except.error BringupError.noDeviceName, ⟨true, false, false, false⟩) ∧
      (⟨true, false, false, false⟩ : TransportState).closed = false) ∧
    ((withModel envBringupOk).2.closed = true ∧
      (withModel envBringupOk).2.rttStopped = true) := by
  constructor
  · exact (release_only_after_successful_enter envNoDevice).1
      BringupError.noDeviceName ⟨true, false, false, false⟩ rfl
  · exact (release_only_after_successful_enter envBringupOk).2
      3 ⟨true, true, false, false⟩ rfl rfl

/-! ## Claim C6 — UTF-8 boundary behavior -/

/-- A byte list of ASCII bytes followed by a two-byte UTF-8 leader is
rejected by the strict decoder. -/
theorem utf8Decode_ascii_incomplete (t : Nat) (h2 : 0xC2 ≤ t) (h3 : t ≤ 0xDF) :
    ∀ (bs : List Nat), (∀ b ∈ bs, b ≤ 0x7F) → utf8Decode (bs ++ [t]) = none := by
  intro bs
  induction bs with
  | nil =>
    intro _
    have hn : ¬ (t ≤ 0x7F) := by omega
    show utf8Decode (t :: []) = none
    rw [utf8Decode.eq_def]
    dsimp only
    rw [if_neg hn]
  | cons b rest ih =>
    intro h
    have hb : b ≤ 0x7F := h b (List.mem_cons_self b rest)
    have htail := ih (fun x hx => h x (List.mem_cons_of_mem b hx))
    show utf8Decode (b :: (rest ++ [t])) = none
    rw [utf8Decode.eq_def]
    dsimp only
    rw [if_pos hb, htail]
    rfl

/-- Claim C6, counterexample: the reads `[0xC3]`, `[0xA9]` split the
valid UTF-8 encoding of `é` (`U+00E9`) across a read boundary; instead
of retaining the undecodable tail, `read_blocking` raises a
`UnicodeDecodeError` on the very first read. -/
theorem split_multibyte_read_raises :
    utf8Decode ([0xC3] ++ [0xA9]) = some [0xE9] ∧
    readBlockingBytes [[0xC3], [0xA9]] = some ReadResult.unicodeDecodeError := by
  refine ⟨by decide, by decide⟩

/-- Claim C6 (amended): a read whose bytes end in an incomplete
multi-byte UTF-8 sequence (a two-byte leader after any ASCII bytes) is
rejected by the strict per-read decode, so `read_blocking` raises a
decode error immediately mid-stream; no undecodable tail is ever
retained for the next read. -/
theorem incomplete_utf8_tail_errors (bs : List Nat) (t : Nat)
    (hascii : ∀ b ∈ bs, b ≤ 0x7F) (h2 : 0xC2 ≤ t) (h3 : t ≤ 0xDF) :
    decodeRead (bs ++ [t]) = .unicodeDecodeError ∧
    readBlockingBytes [bs ++ [t]] = some ReadResult.unicodeDecodeError := by
  have hd := utf8Decode_ascii_incomplete t h2 h3 bs hascii
  have h1 : decodeRead (bs ++ [t]) = .unicodeDecodeError := by
    simp [decodeRead, hd]
  refine ⟨h1, ?_⟩
  have hne : (bs ++ [t]).isEmpty = false := by simp
  simp [readBlockingBytes, hne, h1]

/-- Claim C6 witness: the read `b"Hi" + [0xC3]` (ASCII `Hi` followed by
a dangling two-byte leader) produces an immediate decode error. -/
theorem incomplete_utf8_tail_errors_witness :
    (∀ b ∈ [0x48, 0x69], b ≤ 0x7F) ∧
    decodeRead ([0x48, 0x69] ++ [0xC3]) = .unicodeDecodeError ∧
    readBlockingBytes [[0x48, 0x69] ++ [0xC3]] =
      some ReadResult.unicodeDecodeError := by
  refine ⟨by decide, ?_, ?_⟩
  · exact (incomplete_utf8_tail_errors [0x48, 0x69] 0xC3 (by decide) (by decide)
      (by decide)).1
  · exact (incomplete_utf8_tail_errors [0x48, 0x69] 0xC3 (by decide) (by decide)
      (by decide)).2

/-! ## Claim C9 — constructor-provided device names bypass validation -/

/-- Claim C9: a (nonempty) device name passed to the constructor is used
as-is and written to the last-used-device slot for *any* catalog — no
validation ever happens on that path; by contrast, a name loaded from
the cache file that fails catalog validation is discarded, and the run
behaves exactly as if no cache file existed. -/
theorem ctor_name_bypasses_validation (catalog : List String) :
    (∀ (name : String) (fileContent : Option String) (frags : List String),
      name.isEmpty = false →
      getDeviceName catalog (some name) fileContent frags = .got name name) ∧
    (∀ (fileN : String) (frags : List String),
      (pyStrip fileN).isEmpty = false →
      validateDeviceName catalog (pyStrip fileN) = false →
      getDeviceName catalog none (some fileN) frags =
        getDeviceName catalog none none frags) := by
  constructor
  · intro name fileContent frags h
    simp [getDeviceName, pyTruthy, h]
  · intro fileN frags h1 h2
    simp [getDeviceName, pyTruthy, h1, h2]

/-- Claim C9 witness: the bogus name `"NOT_A_CHIP"` is not in the
scenario catalog, yet the constructor path uses and persists it; the
same name loaded from the cache file is rejected and the run falls back
to interactive resolution. -/
theorem ctor_name_bypasses_validation_witness :
    ("NOT_A_CHIP" : String).isEmpty = false ∧
    validateDeviceName scenarioCatalog (pyStrip "NOT_A_CHIP") = false ∧
    getDeviceName scenarioCatalog (some "NOT_A_CHIP") (some "X") [] =
      .got "NOT_A_CHIP" "NOT_A_CHIP" ∧
    getDeviceName scenarioCatalog none (some "NOT_A_CHIP") [] =
      getDeviceName scenarioCatalog none none [] := by
  refine ⟨by decide, by decide, ?_, ?_⟩
  · exact (ctor_name_bypasses_validation scenarioCatalog).1 "NOT_A_CHIP"
      (some "X") [] (by decide)
  · exact (ctor_name_bypasses_validation scenarioCatalog).2 "NOT_A_CHIP" []
      (by decide) (by decide)

/-! ## Claim C10 — zero up-buffers makes `read_blocking` loop forever -/

/-- Claim C10: when every control-block attempt fails, bring-up completes
with `_jlink_rtt_num_rx_buffers = 0`; with zero buffers the scan of
`range(0)` reads nothing, so no number of polling rounds ever makes
`read_blocking` return — the next-line operation never produces a
value. -/
theorem zero_up_buffers_read_never_returns :
    cbSetup (fun _ => AttemptOutcome.notYetFound) = .ok 0 ∧
    ∀ (readBuf : Nat → Nat → List Nat) (fuel : Nat),
      readBlockingSteps readBuf 0 fuel = none := by
  refine ⟨rfl, ?_⟩
  intro readBuf fuel
  induction fuel with
  | zero => rfl
  | succ t ih => simp [readBlockingSteps, scanBuffers, ih]
